import Mathlib

/-
Shallow embedding of the Skanny scanner frontend (src/src/main.rs together
with the version macros of src/sane-sys/src/lib.rs).

The SANE backend (sane_init, sane_open, sane_control_option, sane_start,
sane_read, sane_cancel, ...) is an opaque external collaborator.  It is
modelled as an oracle value supplying, for the option or acquisition under
study, the statuses it returns and the data it writes through the C out
pointers.  Machine integers: SANE_Int and SANE_Word are C ints (i32),
modelled as Int; Rust casts to usize/u32 are modelled with their exact
wrap-around semantics.  Rust panics (assert!, assert_eq!, todo!,
unimplemented!, out-of-range slicing, Option::unwrap on None) are a
distinct outcome, separate from returning an Err value.
-/

namespace Skanny

/-- Status codes of the backend protocol.  The numeric values live in the
bindgen-generated bindings (not under src/); they are modelled from the spec,
which lists the statuses in declaration order: success, unsupported operation,
cancelled, device busy, invalid argument, end-of-data, feeder jammed, feed
empty, cover open, I/O failure, out-of-memory, access denied.  Only their
distinctness and the identities of GOOD and EOF matter below. -/
def SANE_Status_SANE_STATUS_GOOD : Nat := 0

def SANE_Status_SANE_STATUS_UNSUPPORTED : Nat := 1

def SANE_Status_SANE_STATUS_CANCELLED : Nat := 2

def SANE_Status_SANE_STATUS_DEVICE_BUSY : Nat := 3

def SANE_Status_SANE_STATUS_INVAL : Nat := 4

def SANE_Status_SANE_STATUS_EOF : Nat := 5

def SANE_Status_SANE_STATUS_JAMMED : Nat := 6

def SANE_Status_SANE_STATUS_NO_DOCS : Nat := 7

def SANE_Status_SANE_STATUS_COVER_OPEN : Nat := 8

def SANE_Status_SANE_STATUS_IO_ERROR : Nat := 9

def SANE_Status_SANE_STATUS_NO_MEM : Nat := 10

def SANE_Status_SANE_STATUS_ACCESS_DENIED : Nat := 11

/-- Option value types (SANE_Value_Type), modelled from the spec's list
boolean, integer, fixed-point, string, button, group in declaration order. -/
def SANE_Value_Type_SANE_TYPE_BOOL : Nat := 0

def SANE_Value_Type_SANE_TYPE_INT : Nat := 1

def SANE_Value_Type_SANE_TYPE_FIXED : Nat := 2

def SANE_Value_Type_SANE_TYPE_STRING : Nat := 3

def SANE_Value_Type_SANE_TYPE_BUTTON : Nat := 4

def SANE_Value_Type_SANE_TYPE_GROUP : Nat := 5

/-- Frame formats (SANE_Frame), modelled from the spec: gray, RGB, and the
reserved separate-channel variants red, green, blue. -/
def SANE_Frame_SANE_FRAME_GRAY : Nat := 0

def SANE_Frame_SANE_FRAME_RGB : Nat := 1

def SANE_Frame_SANE_FRAME_RED : Nat := 2

def SANE_Frame_SANE_FRAME_GREEN : Nat := 3

def SANE_Frame_SANE_FRAME_BLUE : Nat := 4

/-- Rust cast of an i32 value to usize (64-bit): sign extension, i.e. the
two's-complement bit pattern, a value in [0, 2^64). -/
def usizeCast (i : Int) : Nat := (i % (2 : Int) ^ 64).toNat

/-- Rust cast of an i32 value to u32: the two's-complement bit pattern,
a value in [0, 2^32). -/
def u32Cast (i : Int) : Nat := (i % (2 : Int) ^ 32).toNat

/-- size_of::<SANE_Int>(): SANE_Int is a C int, 4 bytes. -/
def size_of_SANE_Int : Int := 4

/-- enum Error from main.rs: a backend status, or a type mismatch between an
accessor and the option descriptor. -/
inductive Error where
  | Status (status : Nat)
  | WrongType
deriving DecidableEq

/-- Error::is_eof: self == Error::Status(SANE_STATUS_EOF). -/
def Error.is_eof (e : Error) : Bool :=
  decide (e = Error.Status SANE_Status_SANE_STATUS_EOF)

/-- fn checked: runs a backend call and maps every non-GOOD status to
Err(Error::Status(status)). -/
def checked (status : Nat) : Except Error Unit :=
  if status ≠ SANE_Status_SANE_STATUS_GOOD then Except.error (Error.Status status)
  else Except.ok ()

/-- Result of running a fragment of the program: Rust Ok / Err, plus panic
(assert!, assert_eq!, todo!, unimplemented!, failed unwrap, out-of-range
slicing) and diverges (the read loop would issue another backend call beyond
the supplied response list). -/
inductive Outcome (α : Type) where
  | ok (a : α)
  | err (e : Error)
  | panic
  | diverges
deriving DecidableEq

/-- SANE_VERSION_MAJOR from sane-sys: (code >> 24) as SANE_Word & 0xff.
The source shifts the i32 arithmetically and then masks with 0xff; on the
unsigned 32-bit pattern of the code this equals the logical shift-and-mask
performed here on Nat. -/
def SANE_VERSION_MAJOR (code : Nat) : Nat := code >>> 24 &&& 0xff

/-- SANE_VERSION_MINOR from sane-sys: (code >> 16) as SANE_Word & 0xff. -/
def SANE_VERSION_MINOR (code : Nat) : Nat := code >>> 16 &&& 0xff

/-- SANE_VERSION_BUILD from sane-sys: (code >> 0) as SANE_Word & 0xffff. -/
def SANE_VERSION_BUILD (code : Nat) : Nat := code >>> 0 &&& 0xffff

/-- Modelled from the spec: the packing constructor (SANE_VERSION_CODE) is
part of the generated bindings, not under src/.  The spec: the version triple
is packed into one integer with major in bits 31-24, minor in bits 23-16 and
build in bits 15-0, so packing places each bounded field at its shift. -/
def SANE_VERSION_CODE (major minor build : Nat) : Nat :=
  major <<< 24 + minor <<< 16 + build

/-- struct Version(SANE_Int): the packed version code returned by sane_init,
represented by its unsigned 32-bit pattern. -/
structure Version where
  code : Nat
deriving DecidableEq

/-- Version::major. -/
def Version.major (v : Version) : Nat := SANE_VERSION_MAJOR v.code

/-- Version::minor. -/
def Version.minor (v : Version) : Nat := SANE_VERSION_MINOR v.code

/-- Version::build. -/
def Version.build (v : Version) : Nat := SANE_VERSION_BUILD v.code

/-- The fields of SANE_Option_Descriptor consulted by the option accessors
under study (struct Descriptor wraps a pointer to the backend-owned
descriptor; type_() and size() read these fields). -/
structure Descriptor where
  type_ : Nat
  size : Int
deriving DecidableEq

/-- The value payload an option write hands to sane_control_option: the byte
buffer of a string write, or the word of an integer write. -/
inductive SetPayload where
  | str (bytes : List Nat)
  | int (value : Int)
deriving DecidableEq

/-- Oracle for the backend's sane_control_option behaviour on one option
index: the status of a GET, the bytes it writes into a GET buffer of a given
size, the word it writes on an integer GET, and for a SET with a given
payload the returned status and the info flags it would write through a
non-null info pointer. -/
structure Backend where
  getStatus : Nat
  getFill : Nat → List Nat
  getInt : Int
  setStatus : SetPayload → Nat
  setInfo : SetPayload → Nat

/-- val.iter().position(|&x| x == 0): index of the first NUL byte, if any. -/
def positionZero : List Nat → Option Nat
  | [] => none
  | x :: xs => if x = 0 then some 0 else (positionZero xs).map (· + 1)

/-- The buffer Opt::get_string passes to the backend: vec![0; size] of which
the backend overwrites a prefix (the oracle's fill, clipped to the buffer
length); the rest keeps its zero initialisation. -/
def Opt.get_buffer (d : Descriptor) (b : Backend) : List Nat :=
  (b.getFill (usizeCast d.size) ++ List.replicate (usizeCast d.size) 0).take
    (usizeCast d.size)

/-- Opt::get_string: check the descriptor type (Err(WrongType) on mismatch),
read descriptor.size bytes, truncate at the first NUL.  The final
String::from_utf8(val).unwrap() returns exactly these bytes whenever they are
valid UTF-8; UTF-8 validity is orthogonal to the properties studied here and
the bytes are returned directly. -/
def Opt.get_string (d : Descriptor) (b : Backend) : Outcome (List Nat) :=
  if d.type_ ≠ SANE_Value_Type_SANE_TYPE_STRING then Outcome.err Error.WrongType
  else
    let val := Opt.get_buffer d b
    match checked b.getStatus with
    | Except.error e => Outcome.err e
    | Except.ok _ =>
      let first_zero := (positionZero val).getD val.length
      Outcome.ok (val.take first_zero)

/-- Opt::set_string: assert_eq!(type_, SANE_TYPE_STRING) (panic on mismatch),
append a NUL, hand the buffer to the backend together with a mut info slot,
and return Ok(()) on success: the info flags the backend wrote are dropped.
No length check against descriptor.size is performed anywhere. -/
def Opt.set_string (d : Descriptor) (b : Backend) (valStr : List Nat) : Outcome Unit :=
  if d.type_ ≠ SANE_Value_Type_SANE_TYPE_STRING then Outcome.panic
  else
    let val := valStr ++ [0]
    let _info := b.setInfo (SetPayload.str val)
    match checked (b.setStatus (SetPayload.str val)) with
    | Except.error e => Outcome.err e
    | Except.ok _ => Outcome.ok ()

/-- Opt::get_int: assert!(type is INT or FIXED) and
assert_eq!(size, size_of::<SANE_Int>()) (both panic on mismatch), then read
the value. -/
def Opt.get_int (d : Descriptor) (b : Backend) : Outcome Int :=
  if ¬(d.type_ = SANE_Value_Type_SANE_TYPE_INT ∨
        d.type_ = SANE_Value_Type_SANE_TYPE_FIXED) then Outcome.panic
  else if d.size ≠ size_of_SANE_Int then Outcome.panic
  else
    match checked b.getStatus with
    | Except.error e => Outcome.err e
    | Except.ok _ => Outcome.ok b.getInt

/-- Opt::set_int: the same two asserts as get_int, then the SET call.  The
info pointer passed to the backend is null, so no info flags are even
requested. -/
def Opt.set_int (d : Descriptor) (b : Backend) (val : Int) : Outcome Unit :=
  if ¬(d.type_ = SANE_Value_Type_SANE_TYPE_INT ∨
        d.type_ = SANE_Value_Type_SANE_TYPE_FIXED) then Outcome.panic
  else if d.size ≠ size_of_SANE_Int then Outcome.panic
  else
    match checked (b.setStatus (SetPayload.int val)) with
    | Except.error e => Outcome.err e
    | Except.ok _ => Outcome.ok ()

/-- SANE_Parameters, together with struct Parameters(SANE_Parameters) whose
accessor methods are plain field reads. -/
structure Parameters where
  format : Nat
  last_frame : Int
  bytes_per_line : Int
  pixels_per_line : Int
  lines : Int
  depth : Int
deriving DecidableEq

/-- Handle::parameters: sane_get_parameters writes the struct; any non-GOOD
status propagates as Err. -/
def Handle.parameters (status : Nat) (p : Parameters) : Except Error Parameters :=
  match checked status with
  | Except.error e => Except.error e
  | Except.ok _ => Except.ok p

/-- struct Acquisition, the scan session tied to a handle. -/
structure Acquisition where
deriving DecidableEq

/-- Handle::start.  The source runs checked(|| sane_start(self.0)) but
discards the Result (there is no question-mark operator on that statement)
and unconditionally returns Ok(Acquisition). -/
def Handle.start (startStatus : Nat) : Except Error Acquisition :=
  let _ := checked startStatus
  Except.ok {}

/-- Acquisition::read_image, the streaming read loop.  Each list element is
one sane_read response: the returned status and the byte count the backend
wrote (the loop advances the buffer by len before inspecting the status).
bufLen is the remaining length of the caller's buffer slice.  Advancing past
the end of the buffer (len beyond bufLen) is the panic of the out-of-range
slice buffer[len..]; an EOF breaks the loop, after which
assert_eq!(buffer.len(), 0) panics unless the buffer was filled exactly; any
other non-GOOD status returns Err.  An exhausted response list means the loop
would issue a further backend call: diverges. -/
def Acquisition.read_image : List (Nat × Nat) → Nat → Outcome Unit
  | [], _ => Outcome.diverges
  | (status, len) :: rest, bufLen =>
    if bufLen < len then Outcome.panic
    else
      match checked status with
      | Except.ok _ => Acquisition.read_image rest (bufLen - len)
      | Except.error err =>
        if err.is_eof then
          if bufLen - len = 0 then Outcome.ok () else Outcome.panic
        else Outcome.err err

/-- The expected byte count computed at the top of Acquisition::get_image:
pixels_per_line * (depth / 8) * lines * (1 if the frame is GRAY, else 3).
Rust i32 division truncates toward zero, hence Int.tdiv. -/
def Acquisition.bytesize (p : Parameters) : Int :=
  p.pixels_per_line * Int.tdiv p.depth 8 * p.lines *
    (if p.format = SANE_Frame_SANE_FRAME_GRAY then 1 else 3)

/-- enum Image: the assembled buffers, recorded by the width and height passed
to ImageBuffer::from_raw (u32 casts of the parameters) and by the byte length
of the backing vector.  Pixel contents are not tracked: the read responses
carry only byte counts. -/
inductive Image where
  | Rgb8 (width height : Nat) (byteLen : Nat)
  | Gray8 (width height : Nat) (byteLen : Nat)
deriving DecidableEq

/-- Acquisition::get_image: query parameters, allocate vec![0u8; bytesize as
usize], run the read loop for GRAY and RGB frames (any other frame format
hits todo! before any read), then assemble.  ImageBuffer::from_raw returns
None when the container is smaller than width*height*channels, and the
source unwraps it (panic on None); the final match arm for any
(format, depth) other than (GRAY, 8) and (RGB, 8) is unimplemented!, a
panic. -/
def Acquisition.get_image (paramStatus : Nat) (p : Parameters)
    (reads : List (Nat × Nat)) : Outcome Image :=
  match Handle.parameters paramStatus p with
  | Except.error e => Outcome.err e
  | Except.ok parameters =>
    let imageLen := usizeCast (Acquisition.bytesize parameters)
    let r :=
      if parameters.format = SANE_Frame_SANE_FRAME_GRAY then
        Acquisition.read_image reads imageLen
      else if parameters.format = SANE_Frame_SANE_FRAME_RGB then
        Acquisition.read_image reads imageLen
      else Outcome.panic
    match r with
    | Outcome.err e => Outcome.err e
    | Outcome.panic => Outcome.panic
    | Outcome.diverges => Outcome.diverges
    | Outcome.ok _ =>
      if parameters.format = SANE_Frame_SANE_FRAME_GRAY ∧ parameters.depth = 8 then
        if u32Cast parameters.pixels_per_line * u32Cast parameters.lines * 1 ≤ imageLen then
          Outcome.ok (Image.Gray8 (u32Cast parameters.pixels_per_line)
            (u32Cast parameters.lines) imageLen)
        else Outcome.panic
      else if parameters.format = SANE_Frame_SANE_FRAME_RGB ∧ parameters.depth = 8 then
        if u32Cast parameters.pixels_per_line * u32Cast parameters.lines * 3 ≤ imageLen then
          Outcome.ok (Image.Rgb8 (u32Cast parameters.pixels_per_line)
            (u32Cast parameters.lines) imageLen)
        else Outcome.panic
      else Outcome.panic

/-- Bytes the read loop consumes from its buffer: the sane_read lengths up to
and including the first non-GOOD response (the loop advances the buffer by
len before it inspects the status, so the terminal response's bytes count
too). -/
def consumedBytes : List (Nat × Nat) → Nat
  | [] => 0
  | (status, len) :: rest =>
    if status = SANE_Status_SANE_STATUS_GOOD then len + consumedBytes rest else len

/-- The backend entry points an acquisition can reach, for the teardown
trace. -/
inductive BackendCall where
  | sane_start
  | sane_read
  | sane_cancel
  | sane_get_parameters
deriving DecidableEq

/-- impl Drop for Acquisition: unconditionally issues sane_cancel.
sane_cancel returns void, so the drop glue can neither observe nor propagate
any backend reaction to a redundant cancel. -/
def Acquisition.dropCalls : List BackendCall := [BackendCall.sane_cancel]

/-- Acquisition::cancel(self): the empty body merely consumes self, so the
Drop impl runs at its end. -/
def Acquisition.cancelCalls : List BackendCall := Acquisition.dropCalls

/-- One full acquisition as driven by main: Handle::start, then get_image on
the returned session, then the teardown calls its drop issues.  Rust drops
run when the Acquisition goes out of scope on the Ok return, on an Err
return, and during a panic unwind alike, so the teardown trace accompanies
every outcome of get_image. -/
def acquisitionRun (startStatus paramStatus : Nat) (p : Parameters)
    (reads : List (Nat × Nat)) : Outcome Image × List BackendCall :=
  match Handle.start startStatus with
  | Except.error e => (Outcome.err e, [])
  | Except.ok _ =>
    (Acquisition.get_image paramStatus p reads, Acquisition.dropCalls)

/-- C1: the claim reads that a non-success sane_start status makes start()
abort and propagate Err(Error::Status(status)).  The source computes
checked(|| sane_start(..)) but discards the Result and returns
Ok(Acquisition) unconditionally, so a failing backend start (here
SANE_STATUS_IO_ERROR) still yields an acquisition session.  This contradicts
the adopted contract stated by the spec; the code, not the claim, is at
fault. -/
theorem start_ignores_backend_failure :
    Handle.start SANE_Status_SANE_STATUS_IO_ERROR = Except.ok Acquisition.mk ∧
    Handle.start SANE_Status_SANE_STATUS_IO_ERROR ≠
      Except.error (Error.Status SANE_Status_SANE_STATUS_IO_ERROR) :=
  ⟨rfl, fun h => Except.noConfusion h⟩

/-- C8: major(), minor() and build() extract bits 31-24, 23-16 and 15-0 of
the packed version code, and unpacking a packed (major, minor, build) triple
is the identity whenever the three fields are in range. -/
theorem version_bits_and_roundtrip (ma mi bu code : Nat)
    (hma : ma < 2 ^ 8) (hmi : mi < 2 ^ 8) (hbu : bu < 2 ^ 16) :
    Version.major ⟨SANE_VERSION_CODE ma mi bu⟩ = ma ∧
    Version.minor ⟨SANE_VERSION_CODE ma mi bu⟩ = mi ∧
    Version.build ⟨SANE_VERSION_CODE ma mi bu⟩ = bu ∧
    Version.major ⟨code⟩ = code / 2 ^ 24 % 2 ^ 8 ∧
    Version.minor ⟨code⟩ = code / 2 ^ 16 % 2 ^ 8 ∧
    Version.build ⟨code⟩ = code % 2 ^ 16 := by
  have h8 : (0xff : Nat) = 2 ^ 8 - 1 := by norm_num
  have h16 : (0xffff : Nat) = 2 ^ 16 - 1 := by norm_num
  have hmaj : ∀ x : Nat, SANE_VERSION_MAJOR x = x / 2 ^ 24 % 2 ^ 8 := by
    intro x
    rw [SANE_VERSION_MAJOR, h8, Nat.and_pow_two_sub_one_eq_mod,
      Nat.shiftRight_eq_div_pow]
  have hmin : ∀ x : Nat, SANE_VERSION_MINOR x = x / 2 ^ 16 % 2 ^ 8 := by
    intro x
    rw [SANE_VERSION_MINOR, h8, Nat.and_pow_two_sub_one_eq_mod,
      Nat.shiftRight_eq_div_pow]
  have hbld : ∀ x : Nat, SANE_VERSION_BUILD x = x % 2 ^ 16 := by
    intro x
    rw [SANE_VERSION_BUILD, h16, Nat.and_pow_two_sub_one_eq_mod,
      Nat.shiftRight_eq_div_pow]
    norm_num
  have hcode : SANE_VERSION_CODE ma mi bu = ma * 2 ^ 24 + mi * 2 ^ 16 + bu := by
    rw [SANE_VERSION_CODE, Nat.shiftLeft_eq, Nat.shiftLeft_eq]
  refine ⟨?_, ?_, ?_, hmaj code, hmin code, hbld code⟩
  · simp only [Version.major, hmaj, hcode]; omega
  · simp only [Version.minor, hmin, hcode]; omega
  · simp only [Version.build, hbld, hcode]; omega

/-- Witness for version_bits_and_roundtrip at the concrete triple (1, 0, 3)
and the concrete code 0x01000003. -/
theorem version_bits_and_roundtrip_witness :
    Version.major ⟨SANE_VERSION_CODE 1 0 3⟩ = 1 ∧
    Version.build ⟨16777219⟩ = 16777219 % 2 ^ 16 := by
  have h := version_bits_and_roundtrip 1 0 3 16777219
    (by decide) (by decide) (by decide)
  exact ⟨h.1, h.2.2.2.2.2⟩

/-- C9: on every teardown of an acquisition - explicit cancel, drop on an
error or panic path, or drop after clean completion - the Drop impl issues
sane_cancel; sane_cancel returns void, so a redundant cancel on an
already-finished session cannot surface as an error at this layer. -/
theorem teardown_always_cancels (startStatus paramStatus : Nat) (p : Parameters)
    (reads : List (Nat × Nat)) :
    (acquisitionRun startStatus paramStatus p reads).2 = [BackendCall.sane_cancel] ∧
    Acquisition.cancelCalls = [BackendCall.sane_cancel] :=
  ⟨rfl, rfl⟩

/-- A successful read loop consumed exactly the whole buffer: the byte counts
up to and including the terminal EOF response sum to the buffer length
(assert_eq!(buffer.len(), 0) after the loop). -/
theorem read_image_ok_consumed (reads : List (Nat × Nat)) :
    ∀ bufLen : Nat, Acquisition.read_image reads bufLen = Outcome.ok () →
      consumedBytes reads = bufLen := by
  induction reads with
  | nil =>
    intro bufLen h
    simp [Acquisition.read_image] at h
  | cons head rest ih =>
    intro bufLen h
    obtain ⟨status, len⟩ := head
    by_cases hlt : bufLen < len
    · simp [Acquisition.read_image, hlt] at h
    · by_cases hst : status = SANE_Status_SANE_STATUS_GOOD
      · have hch : checked status = Except.ok () := by simp [checked, hst]
        simp only [Acquisition.read_image, if_neg hlt, hch] at h
        have htail := ih (bufLen - len) h
        simp only [consumedBytes, if_pos hst]
        omega
      · have hch : checked status = Except.error (Error.Status status) := by
          simp [checked, hst]
        by_cases heof : status = SANE_Status_SANE_STATUS_EOF
        · have hiseof : (Error.Status status).is_eof = true := by
            simp [Error.is_eof, heof]
          simp only [Acquisition.read_image, if_neg hlt, hch, hiseof, if_true] at h
          by_cases hz : bufLen - len = 0
          · simp only [consumedBytes, if_neg hst]
            omega
          · simp [hz] at h
        · have hiseof : (Error.Status status).is_eof = false := by
            simp [Error.is_eof, heof]
          simp [Acquisition.read_image, if_neg hlt, hch, hiseof] at h

/-- Truncating at the first NUL never keeps a NUL byte. -/
theorem take_positionZero_no_zero (l : List Nat) :
    0 ∉ l.take ((positionZero l).getD l.length) := by
  induction l with
  | nil => simp
  | cons x xs ih =>
    by_cases hx : x = 0
    · simp [positionZero, hx]
    · cases hpz : positionZero xs with
      | none =>
        rw [hpz] at ih
        simp only [positionZero, if_neg hx, hpz, Option.map_none', Option.getD_none,
          Option.getD_some, List.length_cons, List.take_succ_cons, List.mem_cons]
        push_neg
        exact ⟨fun h => hx h.symm, by simpa using ih⟩
      | some i =>
        rw [hpz] at ih
        simp only [positionZero, if_neg hx, hpz, Option.map_some', Option.getD_some,
          List.take_succ_cons, List.mem_cons]
        push_neg
        exact ⟨fun h => hx h.symm, by simpa using ih⟩
    
/-- A NUL byte in the buffer puts the first-NUL index strictly below the
buffer length. -/
theorem positionZero_of_mem_zero (l : List Nat) (h : 0 ∈ l) :
    ∃ i, positionZero l = some i ∧ i < l.length := by
  induction l with
  | nil => simp at h
  | cons x xs ih =>
    by_cases hx : x = 0
    · exact ⟨0, by simp [positionZero, hx], by simp⟩
    · have hmem : 0 ∈ xs := by
        rcases List.mem_cons.mp h with h0 | h0
        · exact absurd h0.symm hx
        · exact h0
      obtain ⟨i, hi, hlen⟩ := ih hmem
      refine ⟨i + 1, by simp [positionZero, hx, hi], ?_⟩
      simp only [List.length_cons]
      omega

/-- Inversion of a successful get_image: the parameters call succeeded, the
(format, depth) pair is one of the two supported combinations, and the read
loop consumed the allocated buffer exactly. -/
theorem get_image_ok_inversion (paramStatus : Nat) (p : Parameters)
    (reads : List (Nat × Nat)) (img : Image)
    (h : Acquisition.get_image paramStatus p reads = Outcome.ok img) :
    paramStatus = SANE_Status_SANE_STATUS_GOOD ∧
    ((p.format = SANE_Frame_SANE_FRAME_GRAY ∧ p.depth = 8) ∨
      (p.format = SANE_Frame_SANE_FRAME_RGB ∧ p.depth = 8)) ∧
    Acquisition.read_image reads (usizeCast (Acquisition.bytesize p)) =
      Outcome.ok () := by
  by_cases hps : paramStatus = SANE_Status_SANE_STATUS_GOOD
  case neg =>
    exfalso
    simp [Acquisition.get_image, Handle.parameters, checked, hps] at h
  case pos =>
    refine ⟨hps, ?_⟩
    have hch : checked paramStatus = Except.ok () := by simp [checked, hps]
    simp only [Acquisition.get_image, Handle.parameters, hch] at h
    by_cases hg : p.format = SANE_Frame_SANE_FRAME_GRAY
    · simp only [hg, if_true] at h
      cases hr : Acquisition.read_image reads (usizeCast (Acquisition.bytesize p)) with
      | ok a =>
        cases a
        simp only [hr] at h
        by_cases hd : p.depth = 8
        · exact ⟨Or.inl ⟨hg, hd⟩, rfl⟩
        · exfalso
          simp [hd, SANE_Frame_SANE_FRAME_GRAY, SANE_Frame_SANE_FRAME_RGB] at h
      | err e => simp [hr] at h
      | panic => simp [hr] at h
      | diverges => simp [hr] at h
    · by_cases hrgb : p.format = SANE_Frame_SANE_FRAME_RGB
      · simp only [hg, if_false, hrgb, if_true] at h
        cases hr : Acquisition.read_image reads (usizeCast (Acquisition.bytesize p)) with
        | ok a =>
          cases a
          simp only [hr] at h
          by_cases hd : p.depth = 8
          · exact ⟨Or.inr ⟨hrgb, hd⟩, rfl⟩
          · exfalso
            simp [hd, SANE_Frame_SANE_FRAME_GRAY, SANE_Frame_SANE_FRAME_RGB] at h
        | err e => simp [hr] at h
        | panic => simp [hr] at h
        | diverges => simp [hr] at h
      · exfalso
        simp [hg, hrgb] at h

/-- With a GOOD parameters call and a frame format that is neither GRAY nor
RGB, get_image hits the todo! arm before any read is attempted. -/
theorem get_image_reject_format (p : Parameters) (reads : List (Nat × Nat))
    (h1 : p.format ≠ SANE_Frame_SANE_FRAME_GRAY)
    (h2 : p.format ≠ SANE_Frame_SANE_FRAME_RGB) :
    Acquisition.get_image SANE_Status_SANE_STATUS_GOOD p reads = Outcome.panic := by
  simp [Acquisition.get_image, Handle.parameters, checked, h1, h2]

/-- Parameters with a grayscale 8-bit frame whose bytes_per_line (20) differs
from pixels_per_line (5): row padding the code never consults. -/
def padded_params : Parameters :=
  ⟨SANE_Frame_SANE_FRAME_GRAY, 0, 20, 5, 2, 8⟩

/-- Backend read responses delivering 10 bytes and then a clean EOF. -/
def padded_reads : List (Nat × Nat) :=
  [(SANE_Status_SANE_STATUS_GOOD, 10), (SANE_Status_SANE_STATUS_EOF, 0)]

/-- C2 counterexample: the claim's byte-count formula multiplies
bytes_per_line, but get_image sizes and fills its buffer from
pixels_per_line.  On a frame with bytes_per_line 20, pixels_per_line 5,
lines 2, depth 8, GRAY, the acquisition completes successfully having
accumulated 10 bytes, while the claim's formula demands
20 * 2 * (8/8) * 1 = 40. -/
theorem get_image_total_ignores_bytes_per_line :
    Acquisition.get_image SANE_Status_SANE_STATUS_GOOD padded_params padded_reads
      = Outcome.ok (Image.Gray8 5 2 10) ∧
    consumedBytes padded_reads ≠
      usizeCast (padded_params.bytes_per_line * padded_params.lines *
        Int.tdiv padded_params.depth 8 * 1) := by
  exact ⟨by decide, by decide⟩

/-- C2 (amended): the byte count a successful acquisition accumulates equals
pixels_per_line * (depth/8) * lines * channel_count, with channel_count 1 for
GRAY frames and 3 otherwise; contrapositively, a read loop that reaches EOF
before that many bytes never produces an Ok image (the source instead panics
on the post-loop assert_eq!(buffer.len(), 0)). -/
theorem get_image_total_eq_expected (paramStatus : Nat) (p : Parameters)
    (reads : List (Nat × Nat)) (img : Image)
    (h : Acquisition.get_image paramStatus p reads = Outcome.ok img) :
    consumedBytes reads =
      usizeCast (p.pixels_per_line * Int.tdiv p.depth 8 * p.lines *
        (if p.format = SANE_Frame_SANE_FRAME_GRAY then 1 else 3)) := by
  have hinv := get_image_ok_inversion paramStatus p reads img h
  exact read_image_ok_consumed reads _ hinv.2.2

/-- Witness for get_image_total_eq_expected on a concrete successful
acquisition. -/
theorem get_image_total_eq_expected_witness :
    consumedBytes padded_reads =
      usizeCast (padded_params.pixels_per_line * Int.tdiv padded_params.depth 8 *
        padded_params.lines *
        (if padded_params.format = SANE_Frame_SANE_FRAME_GRAY then 1 else 3)) :=
  get_image_total_eq_expected SANE_Status_SANE_STATUS_GOOD padded_params padded_reads
    (Image.Gray8 5 2 10) (by decide)

/-- A grayscale frame at 16-bit depth: the reads can succeed, but the
assembly match has no arm for (GRAY, 16). -/
def deep_gray_params : Parameters :=
  ⟨SANE_Frame_SANE_FRAME_GRAY, 0, 8, 2, 2, 16⟩

/-- Read responses delivering the full 8 expected bytes, then EOF. -/
def deep_gray_reads : List (Nat × Nat) :=
  [(SANE_Status_SANE_STATUS_GOOD, 8), (SANE_Status_SANE_STATUS_EOF, 0)]

/-- C7 counterexample: on the unsupported combination (GRAY, depth 16) with a
fully successful read, get_image does not return any error value to the
caller - enum Error has no unsupported-format variant at all - it panics via
the unimplemented! arm. -/
theorem get_image_unsupported_combo_panics :
    Acquisition.get_image SANE_Status_SANE_STATUS_GOOD deep_gray_params deep_gray_reads
      = Outcome.panic ∧
    (Outcome.panic : Outcome Image) ≠ Outcome.err Error.WrongType ∧
    (Outcome.panic : Outcome Image) ≠
      Outcome.err (Error.Status SANE_Status_SANE_STATUS_UNSUPPORTED) := by
  exact ⟨by decide, by decide, by decide⟩

/-- C7 (amended): a typed image is produced only for (GRAY, 8) and (RGB, 8);
frame formats other than GRAY and RGB make get_image panic at the todo! arm
before any read, and supported formats at other depths panic at the
unimplemented! assembly arm (or propagate a read error first) - in no case is
a guessed image or an error value returned for an unsupported combination. -/
theorem get_image_supported_or_reject (paramStatus : Nat) (p : Parameters)
    (reads : List (Nat × Nat)) :
    (∀ img : Image, Acquisition.get_image paramStatus p reads = Outcome.ok img →
      (p.format = SANE_Frame_SANE_FRAME_GRAY ∧ p.depth = 8) ∨
        (p.format = SANE_Frame_SANE_FRAME_RGB ∧ p.depth = 8)) ∧
    (paramStatus = SANE_Status_SANE_STATUS_GOOD →
      p.format ≠ SANE_Frame_SANE_FRAME_GRAY → p.format ≠ SANE_Frame_SANE_FRAME_RGB →
      Acquisition.get_image paramStatus p reads = Outcome.panic) := by
  constructor
  · intro img h
    exact (get_image_ok_inversion paramStatus p reads img h).2.1
  · intro hps h1 h2
    subst hps
    exact get_image_reject_format p reads h1 h2

/-- Parameters carrying the reserved separate-channel RED frame format. -/
def red_params : Parameters := ⟨SANE_Frame_SANE_FRAME_RED, 0, 4, 2, 2, 8⟩

/-- Witness for get_image_supported_or_reject at the RED frame format. -/
theorem get_image_supported_or_reject_witness :
    Acquisition.get_image SANE_Status_SANE_STATUS_GOOD red_params [] = Outcome.panic :=
  (get_image_supported_or_reject SANE_Status_SANE_STATUS_GOOD red_params []).2 rfl
    (by decide) (by decide)

/-- C10: every frame format other than GRAY is counted as 3 channels in the
expected-size computation: the reserved separate-channel variants are sized
exactly like RGB, and the format dispatch then rejects them (todo! panic). -/
theorem non_gray_counted_as_three_channels (p : Parameters)
    (reads : List (Nat × Nat)) (h : p.format ≠ SANE_Frame_SANE_FRAME_GRAY) :
    Acquisition.bytesize p =
      p.pixels_per_line * Int.tdiv p.depth 8 * p.lines * 3 ∧
    Acquisition.bytesize p = Acquisition.bytesize
      ⟨SANE_Frame_SANE_FRAME_RGB, p.last_frame, p.bytes_per_line,
        p.pixels_per_line, p.lines, p.depth⟩ ∧
    (p.format ≠ SANE_Frame_SANE_FRAME_RGB →
      Acquisition.get_image SANE_Status_SANE_STATUS_GOOD p reads = Outcome.panic) := by
  refine ⟨?_, ?_, fun h2 => get_image_reject_format p reads h h2⟩
  · simp [Acquisition.bytesize, h]
  · have h0 : p.format ≠ 0 := h
    simp [Acquisition.bytesize, SANE_Frame_SANE_FRAME_RGB, SANE_Frame_SANE_FRAME_GRAY, h0]

/-- Witness for non_gray_counted_as_three_channels at the RED frame format. -/
theorem non_gray_counted_as_three_channels_witness :
    Acquisition.bytesize red_params =
      red_params.pixels_per_line * Int.tdiv red_params.depth 8 * red_params.lines * 3 :=
  (non_gray_counted_as_three_channels red_params [] (by decide)).1

/-- The get_string buffer always has exactly descriptor.size bytes. -/
theorem get_buffer_length (d : Descriptor) (b : Backend) :
    (Opt.get_buffer d b).length = usizeCast d.size := by
  simp [Opt.get_buffer]

/-- A string option descriptor declaring a 2-byte value buffer. -/
def tiny_string_desc : Descriptor := ⟨SANE_Value_Type_SANE_TYPE_STRING, 2⟩

/-- An integer option descriptor of native word size. -/
def int_desc : Descriptor := ⟨SANE_Value_Type_SANE_TYPE_INT, 4⟩

/-- A backend that accepts every control call with GOOD and reports no info
flags. -/
def accepting_backend : Backend :=
  ⟨SANE_Status_SANE_STATUS_GOOD, fun _ => [], 0,
    fun _ => SANE_Status_SANE_STATUS_GOOD, fun _ => 0⟩

/-- A backend that fails every SET with IO_ERROR. -/
def refusing_backend : Backend :=
  ⟨SANE_Status_SANE_STATUS_GOOD, fun _ => [], 0,
    fun _ => SANE_Status_SANE_STATUS_IO_ERROR, fun _ => 0⟩

/-- C3 counterexample: writing the 3-byte value "abc" (4 bytes with the
appended NUL) to a string option of declared size 2 is not rejected before
the backend call: the outcome tracks the backend's answer (Ok under an
accepting backend, the backend's IO_ERROR under a refusing one), so the
overlong buffer reached the backend both times. -/
theorem set_string_overlong_reaches_backend :
    Opt.set_string tiny_string_desc refusing_backend [97, 98, 99] =
      Outcome.err (Error.Status SANE_Status_SANE_STATUS_IO_ERROR) ∧
    Opt.set_string tiny_string_desc accepting_backend [97, 98, 99] = Outcome.ok () ∧
    usizeCast tiny_string_desc.size < ([97, 98, 99] : List Nat).length + 1 :=
  ⟨rfl, rfl, by decide⟩

/-- C3 (amended): set_string performs no length check against
descriptor.size; after the string-type assertion it appends a NUL and
unconditionally forwards the buffer to the backend, so even a value
exceeding the declared capacity produces exactly the backend's status as
outcome. -/
theorem set_string_no_size_check (d : Descriptor) (b : Backend) (valStr : List Nat)
    (hty : d.type_ = SANE_Value_Type_SANE_TYPE_STRING)
    (hlong : usizeCast d.size < valStr.length + 1) :
    Opt.set_string d b valStr =
      (match checked (b.setStatus (SetPayload.str (valStr ++ [0]))) with
        | Except.error e => Outcome.err e
        | Except.ok _ => Outcome.ok ()) := by
  simp [Opt.set_string, hty]

/-- Witness for set_string_no_size_check on the concrete overlong write. -/
theorem set_string_no_size_check_witness :
    Opt.set_string tiny_string_desc refusing_backend [97, 98, 99] =
      (match checked (refusing_backend.setStatus (SetPayload.str ([97, 98, 99] ++ [0]))) with
        | Except.error e => Outcome.err e
        | Except.ok _ => Outcome.ok ()) :=
  set_string_no_size_check tiny_string_desc refusing_backend [97, 98, 99] rfl (by decide)

/-- A backend whose 2-byte string buffer comes back entirely non-NUL. -/
def full_buffer_backend : Backend :=
  ⟨SANE_Status_SANE_STATUS_GOOD, fun _ => [65, 66], 0,
    fun _ => SANE_Status_SANE_STATUS_GOOD, fun _ => 0⟩

/-- C4 counterexample: when the backend fills the whole size-2 buffer without
any NUL terminator, get_string returns all 2 bytes, so the claimed bound
length ≤ size - 1 fails (the true bound is length ≤ size). -/
theorem get_string_whole_buffer_when_no_nul :
    Opt.get_string tiny_string_desc full_buffer_backend = Outcome.ok [65, 66] ∧
    ¬(([65, 66] : List Nat).length ≤ usizeCast tiny_string_desc.size - 1) :=
  ⟨rfl, by decide⟩

/-- C4 (amended): a successful get_string reads exactly descriptor.size bytes
and truncates at the first NUL, so the value never contains a NUL and has
length ≤ size; the claimed bound length ≤ size - 1 holds exactly when the
returned buffer contains at least one NUL byte. -/
theorem get_string_nul_free_and_bounded (d : Descriptor) (b : Backend) (v : List Nat)
    (h : Opt.get_string d b = Outcome.ok v) :
    v.length ≤ usizeCast d.size ∧ 0 ∉ v ∧
    (0 ∈ Opt.get_buffer d b → v.length ≤ usizeCast d.size - 1) := by
  by_cases hty : d.type_ = SANE_Value_Type_SANE_TYPE_STRING
  case neg => simp [Opt.get_string, hty] at h
  case pos =>
    by_cases hst : b.getStatus = SANE_Status_SANE_STATUS_GOOD
    case neg => simp [Opt.get_string, hty, checked, hst] at h
    case pos =>
      have hch : checked b.getStatus = Except.ok () := by simp [checked, hst]
      simp only [Opt.get_string, hty, hch, ne_eq, not_true_eq_false, if_false,
        Outcome.ok.injEq] at h
      subst h
      have hbuf := get_buffer_length d b
      refine ⟨?_, take_positionZero_no_zero _, ?_⟩
      · rw [← hbuf]
        simp only [List.length_take]
        omega
      · intro hz
        obtain ⟨i, hi, hlt⟩ := positionZero_of_mem_zero _ hz
        rw [hi]
        simp only [Option.getD_some, List.length_take]
        omega

/-- C5 counterexample: get_int on a string-typed descriptor does not return
the WrongType (TypeMismatch) error the claim promises - the assert! aborts
the process instead. -/
theorem get_int_type_mismatch_panics :
    Opt.get_int tiny_string_desc accepting_backend = Outcome.panic ∧
    (Outcome.panic : Outcome Int) ≠ Outcome.err Error.WrongType :=
  ⟨rfl, by decide⟩

/-- C5 (amended): all four typed accessors do verify the descriptor's
declared type (and, for the integer accessors, the declared byte size)
before touching the backend, and never proceed on a mismatch - but only
get_string reports the mismatch as an Err(WrongType) value; set_string,
get_int and set_int enforce their checks with assert!/assert_eq!, which
panic rather than return an error. -/
theorem typed_accessors_enforce_descriptor (d : Descriptor) (b : Backend)
    (s : List Nat) (n : Int) :
    (d.type_ ≠ SANE_Value_Type_SANE_TYPE_STRING →
      Opt.get_string d b = Outcome.err Error.WrongType ∧
      Opt.set_string d b s = Outcome.panic) ∧
    (d.type_ ≠ SANE_Value_Type_SANE_TYPE_INT →
      d.type_ ≠ SANE_Value_Type_SANE_TYPE_FIXED →
      Opt.get_int d b = Outcome.panic ∧ Opt.set_int d b n = Outcome.panic) ∧
    ((d.type_ = SANE_Value_Type_SANE_TYPE_INT ∨
        d.type_ = SANE_Value_Type_SANE_TYPE_FIXED) →
      d.size ≠ size_of_SANE_Int →
      Opt.get_int d b = Outcome.panic ∧ Opt.set_int d b n = Outcome.panic) := by
  refine ⟨fun hty => ⟨by simp [Opt.get_string, hty], by simp [Opt.set_string, hty]⟩,
    fun h1 h2 => ⟨by simp [Opt.get_int, h1, h2], by simp [Opt.set_int, h1, h2]⟩,
    fun hty hsz => ?_⟩
  rcases hty with h | h
  · exact ⟨by simp [Opt.get_int, h, hsz], by simp [Opt.set_int, h, hsz]⟩
  · exact ⟨by simp [Opt.get_int, h, hsz], by simp [Opt.set_int, h, hsz]⟩

/-- Witness for typed_accessors_enforce_descriptor: a string-typed descriptor
makes get_int panic, and an integer-typed descriptor makes get_string report
WrongType. -/
theorem typed_accessors_enforce_descriptor_witness :
    Opt.get_int tiny_string_desc accepting_backend = Outcome.panic ∧
    Opt.get_string int_desc accepting_backend = Outcome.err Error.WrongType :=
  ⟨((typed_accessors_enforce_descriptor tiny_string_desc accepting_backend [] 0).2.1
      (by decide) (by decide)).1,
    ((typed_accessors_enforce_descriptor int_desc accepting_backend [] 0).1
      (by decide)).1⟩

/-- A backend that accepts writes and reports the reload-options info flag
(the SANE_INFO_RELOAD_OPTIONS bit, value 2 in the SANE bindings). -/
def flagging_backend : Backend :=
  ⟨SANE_Status_SANE_STATUS_GOOD, fun _ => [], 0,
    fun _ => SANE_Status_SANE_STATUS_GOOD, fun _ => 2⟩

/-- C6 counterexample: the backend reports the reload-options flag on both a
string and an integer write, yet both setters return a bare Ok(()) -
identical to what a flag-free backend produces - so the info flags are
silently dropped, not surfaced (set_string collects them into a local that is
never read; set_int passes a null info pointer so they are never even
requested). -/
theorem set_calls_drop_info_flags :
    flagging_backend.setInfo (SetPayload.str ([99] ++ [0])) = 2 ∧
    Opt.set_string tiny_string_desc flagging_backend [99] = Outcome.ok () ∧
    Opt.set_string tiny_string_desc flagging_backend [99] =
      Opt.set_string tiny_string_desc accepting_backend [99] ∧
    flagging_backend.setInfo (SetPayload.int 7) = 2 ∧
    Opt.set_int int_desc flagging_backend 7 = Outcome.ok () ∧
    Opt.set_int int_desc flagging_backend 7 =
      Opt.set_int int_desc accepting_backend 7 :=
  ⟨rfl, rfl, rfl, rfl, rfl, rfl⟩

/-- C6 (amended): the outcome of every set-style call is fully determined by
the backend's status function alone - two backends that agree on statuses but
report arbitrarily different info flags yield identical results, so no
side-effect information reaches the caller. -/
theorem set_results_independent_of_info (d dInt : Descriptor) (b b2 : Backend)
    (s : List Nat) (n : Int) (hset : b.setStatus = b2.setStatus) :
    Opt.set_string d b s = Opt.set_string d b2 s ∧
    Opt.set_int dInt b n = Opt.set_int dInt b2 n := by
  constructor
  · simp [Opt.set_string, hset]
  · simp [Opt.set_int, hset]

/-- Witness for set_results_independent_of_info on the flagging and flag-free
backends, which share their status function. -/
theorem set_results_independent_of_info_witness :
    Opt.set_string tiny_string_desc flagging_backend [99] =
      Opt.set_string tiny_string_desc accepting_backend [99] :=
  (set_results_independent_of_info tiny_string_desc int_desc flagging_backend
    accepting_backend [99] 7 rfl).1

/-- Witness for get_string_nul_free_and_bounded on the concrete NUL-free
full-buffer read. -/
theorem get_string_nul_free_and_bounded_witness :
    ([65, 66] : List Nat).length ≤ usizeCast tiny_string_desc.size ∧
    0 ∉ ([65, 66] : List Nat) ∧
    (0 ∈ Opt.get_buffer tiny_string_desc full_buffer_backend →
      ([65, 66] : List Nat).length ≤ usizeCast tiny_string_desc.size - 1) :=
  get_string_nul_free_and_bounded tiny_string_desc full_buffer_backend [65, 66]
    (by decide)

end Skanny
